import Mathlib

/-!
Shallow embedding of the up-down-workers Cloudflare Worker (src/lib.rs).

The worker answers "is this URL up or down".  Its core pipeline, after
authentication and body parsing, is:

  normalize the raw url string → parse it → consult the edge cache →
  extract the host → DNS-over-HTTPS domain safety gate →
  derive probe candidates (host, then registrable domain) →
  probe them sequentially, short-circuiting on the first UP →
  build the JSON response and schedule a background cache write.

External effects (the `url` crate parser, the edge cache, the DoH endpoint,
the public-suffix list and the outbound HTTP fetches) are modelled as
oracles: abstract functions supplied as parameters, with the worker's own
logic translated from the Rust source.
-/

namespace UpDown

/-- The `ProbeResult` struct of src/lib.rs (serde field `type` is called
`probe_type` in the source as well). -/
structure ProbeResult where
  probe_type : String
  url : String
  status : String
  status_code : Option Nat
  status_text : String
deriving DecidableEq

/-- The `FinalResponse` struct of src/lib.rs. -/
structure FinalResponse where
  requested_url : String
  results : List ProbeResult
deriving DecidableEq

/-- Outcome of the race inside `probe`: either the HTTP fetch resolves first
(with a response carrying a status code, or a transport-level error), or the
60-second delay future wins. -/
inductive FetchOutcome where
  | response (status_code : Nat)
  | error (e : String)
  | timeout
deriving DecidableEq

/-- The timer duration of the probe race: `Delay::from(Duration::from_secs(60))`. -/
def probeTimeoutSecs : Nat := 60

/-- The `probe` function of src/lib.rs (lines 130-194), as a function of the
race outcome.  A received response is classified by
`(200..400).contains(&status_code)`; a transport error maps to a DOWN result
with the fetch error text; a timeout maps to the fixed timed-out message. -/
def probe (url probe_type : String) (o : FetchOutcome) : ProbeResult :=
  match o with
  | .response sc =>
      { probe_type := probe_type
        url := url
        status := if 200 ≤ sc ∧ sc < 400 then "UP" else "DOWN"
        status_code := some sc
        status_text := "" }
  | .error e =>
      { probe_type := probe_type
        url := url
        status := "DOWN"
        status_code := none
        status_text := "Fetch to origin error: " ++ e }
  | .timeout =>
      { probe_type := probe_type
        url := url
        status := "DOWN"
        status_code := none
        status_text := "Request to origin timed-out after 60 secs." }

/-- Whether `controller.abort()` has run by the time `probe` returns: the
delay future calls it after the 60-second sleep, so it has fired exactly in
the timeout branch (when the fetch wins, the delay future is dropped before
the abort call). -/
def probeAborts : FetchOutcome → Bool
  | .timeout => true
  | _ => false

/-! ### JSON values and `check_domain` -/

/-- serde_json values, with numbers restricted to the integers (the DoH
`Status` field the worker reads is numeric; floats do not occur in any
claim). -/
inductive JsonValue where
  | null
  | bool (b : Bool)
  | num (n : Int)
  | str (s : String)
  | arr (elems : List JsonValue)
  | obj (fields : List (String × JsonValue))

/-- `serde_json::Value::as_object`: `Some` exactly on objects. -/
def asObject : JsonValue → Option (List (String × JsonValue))
  | .obj fields => some fields
  | _ => none

/-- `serde_json::Value::as_u64`: `Some` exactly on integers representable as
an unsigned 64-bit value. -/
def asU64 : JsonValue → Option Nat
  | .num n => if 0 ≤ n ∧ n < 2 ^ 64 then some n.toNat else none
  | _ => none

/-- `Map::get` on a parsed JSON object. -/
def objGet (fields : List (String × JsonValue)) (key : String) : Option JsonValue :=
  (fields.find? (fun p => p.1 == key)).map (fun p => p.2)

/-- Outcome of the DNS-over-HTTPS call made by `check_domain`: the send can
fail at the transport level, the body can fail to parse as JSON, or a JSON
value is obtained. -/
inductive DnsResponse where
  | transportError (e : String)
  | jsonError (e : String)
  | jsonValue (v : JsonValue)

/-- Result of `check_domain`: `Ok(status)`, an `Err` propagated by `?`, or a
panic from one of the `unwrap()` calls on lines 212-213. -/
inductive CheckResult where
  | ok (status : Nat)
  | err
  | panic
deriving DecidableEq

/-- The `check_domain` function of src/lib.rs (lines 196-218), as a function
of the DoH call outcome.  Transport and JSON-decoding failures propagate as
`Err` via `?`; a decoded JSON value is then taken apart with `unwrap()`:
`as_object().unwrap()`, `.get("Status").unwrap()`, `.as_u64().unwrap()`,
each of which panics on `None`. -/
def check_domain (resp : DnsResponse) : CheckResult :=
  match resp with
  | .transportError _ => .err
  | .jsonError _ => .err
  | .jsonValue v =>
    match asObject v with
    | none => .panic
    | some fields =>
      match objGet fields "Status" with
      | none => .panic
      | some sv =>
        match asU64 sv with
        | none => .panic
        | some n => .ok n

/-- What the `fetch` handler does with `check_domain`'s result (lines 72-79):
`if let Ok(status) = check_domain(host).await { if status != 0 { return 400 } }`.
An `Err` is silently ignored (fail-open); a panic unwinds the request. -/
inductive GateDecision where
  | proceed
  | reject (status : Nat)
  | abort
deriving DecidableEq

/-- The gate decision taken by `fetch` from a `check_domain` result. -/
def domainGate : CheckResult → GateDecision
  | .ok s => if s ≠ 0 then .reject s else .proceed
  | .err => .proceed
  | .panic => .abort

/-! ### URL normalization, candidates, aggregation -/

/-- Rust's `str::starts_with(pat)` for a string pattern: the pattern's
characters form a prefix of the string's characters. -/
def strStartsWith (s pat : String) : Bool := pat.data.isPrefixOf s.data

/-- Lines 51-53 of src/lib.rs: prepend `https://` when the raw input does not
start with the literal prefix `http`. -/
def normalize (raw : String) : String :=
  if strStartsWith raw "http" then raw else "https://" ++ raw

/-- Condition written from the spec's words, for comparison with the code:
"if it does not begin with an HTTP(S) scheme token, prepend `https://`".
An HTTP(S) scheme token at the start of a URL string is `http://` or
`https://`. -/
def specSchemeTokenCond (s : String) : Bool :=
  strStartsWith s "http://" || strStartsWith s "https://"

/-- Abstraction of a successfully parsed `url::Url`: the worker only reads
its scheme, its optional host string, and its `to_string()` rendering. -/
structure ParsedUrl where
  scheme : String
  host : Option String
  full : String
deriving DecidableEq

/-- Lines 65-91 of src/lib.rs: the host candidate is always pushed (the
dedup set is empty at that point); a domain candidate derived from
`psl::domain_str` is pushed only when its URL string is not already in the
set, i.e. differs from the host candidate URL. Each candidate is a
`(url, probe_type)` pair. -/
def candidates (scheme host : String) (psl : String → Option String) :
    List (String × String) :=
  let host_url := scheme ++ "://" ++ host
  let base := [(host_url, "host")]
  match psl host with
  | none => base
  | some domain =>
    let domain_url := scheme ++ "://" ++ domain
    if domain_url = host_url then base else base ++ [(domain_url, "domain")]

/-- One iteration of the probe loop body applied to a candidate pair, given
the per-URL fetch outcome oracle. -/
def probeStep (f : String → FetchOutcome) (p : String × String) : ProbeResult :=
  probe p.1 p.2 (f p.1)

/-- Lines 93-101 of src/lib.rs: probe candidates in order, push each result,
and `break` right after pushing a result whose status is `UP`. -/
def runProbes (f : String → FetchOutcome) : List (String × String) → List ProbeResult
  | [] => []
  | p :: rest =>
    if (probeStep f p).status = "UP" then [probeStep f p]
    else probeStep f p :: runProbes f rest

/-! ### Headers, cache, and the fetch pipeline -/

/-- `Headers::set`: overwrite the value of an existing header name, or append
the pair when the name is absent. -/
def setHeader : List (String × String) → String → String → List (String × String)
  | [], k, v => [(k, v)]
  | (k1, v1) :: rest, k, v =>
    if k1 = k then (k, v) :: rest else (k1, v1) :: setHeader rest k v

/-- `Headers::get`: the value of the first pair with the given name. -/
def getHeader (hs : List (String × String)) (k : String) : Option String :=
  (hs.find? (fun p => p.1 == k)).map (fun p => p.2)

/-- A response stored in the edge cache: status, headers and body. -/
structure CachedResponse where
  status : Nat
  headers : List (String × String)
  body : String
deriving DecidableEq

/-- Observable effects of one request, in order: the DoH safety check, each
outbound probe fetch, and the scheduled background cache write. -/
inductive Event where
  | dnsCheck
  | probeCall (url : String)
  | cachePut (key : String)
deriving DecidableEq

/-- The oracles standing for the worker's external collaborators:
`parse` for `Url::parse`, `cacheGet` for `Cache::get` (collapsing `Err(_)`
and `Ok(None)`, which the handler treats identically), `dns` for the DoH
call, `psl` for `psl::domain_str`, `outcome` for each outbound probe fetch,
and `cacheTtlVar` for the parsed `CACHE_TTL_SECONDS` variable. -/
structure Oracles where
  parse : String → Option ParsedUrl
  cacheGet : String → Option CachedResponse
  dns : DnsResponse
  psl : String → Option String
  outcome : String → FetchOutcome
  cacheTtlVar : Option Nat

/-- How one request terminates. `invalidUrl` is the `?` on `Url::parse`
(line 55), `missingHost` the early return on line 69, `rejected` the 400 on
lines 74-77, `panicked` an unwinding panic out of `check_domain`, and
`success` the JSON response built on lines 103-127. -/
inductive FetchResult where
  | invalidUrl
  | missingHost
  | cacheHit (resp : CachedResponse)
  | rejected (code : Nat) (message : String)
  | panicked
  | success (resp : FinalResponse) (headers : List (String × String))
deriving DecidableEq

/-- The miss-path response headers built on lines 108-116: `Cache-Control`
from `CACHE_TTL_SECONDS` (default 600) and `X-Worker-Cache: MISS`. -/
def missHeaders (o : Oracles) : List (String × String) :=
  [("Cache-Control", "max-age=" ++ toString (o.cacheTtlVar.getD 600)),
   ("X-Worker-Cache", "MISS")]

/-- The `fetch` handler of src/lib.rs from line 51 on (after authentication
and input parsing), returning the terminal result together with the ordered
trace of external effects. -/
def fetchCore (o : Oracles) (raw : String) : FetchResult × List Event :=
  let target := normalize raw
  match o.parse target with
  | none => (.invalidUrl, [])
  | some u =>
    let cache_key := u.full
    match o.cacheGet cache_key with
    | some cached =>
      (.cacheHit { cached with headers := setHeader cached.headers "X-Worker-Cache" "HIT" },
       [])
    | none =>
      match u.host with
      | none => (.missingHost, [])
      | some host =>
        match domainGate (check_domain o.dns) with
        | .reject s =>
          (.rejected 400 ("Request does not pass domain check [" ++ toString s ++ "]."),
           [.dnsCheck])
        | .abort => (.panicked, [.dnsCheck])
        | .proceed =>
          let results := runProbes o.outcome (candidates u.scheme host o.psl)
          (.success { requested_url := u.full, results := results } (missHeaders o),
           Event.dnsCheck :: results.map (fun r => Event.probeCall r.url)
             ++ [Event.cachePut cache_key])

/-- The service's own HTTP status code for each terminal result, when one is
produced by the handler itself (`invalidUrl` and `missingHost` propagate an
`Err` to the runtime; a panic unwinds). -/
def httpStatusOf : FetchResult → Option Nat
  | .invalidUrl => none
  | .missingHost => none
  | .cacheHit c => some c.status
  | .rejected code _ => some code
  | .panicked => none
  | .success _ _ => some 200

/-! ### Serialization -/

/-- The serde serialization of `ProbeResult` (lines 13-21): field order as
declared, with `probe_type` renamed to `type` and the `Option` field emitted
as a number or `null`. -/
def probeResultFields (r : ProbeResult) : List (String × JsonValue) :=
  [("type", .str r.probe_type),
   ("url", .str r.url),
   ("status", .str r.status),
   ("status_code", match r.status_code with
                   | some n => .num n
                   | none => .null),
   ("status_text", .str r.status_text)]

/-- The serde serialization of `FinalResponse` (lines 23-27). -/
def finalResponseFields (r : FinalResponse) : List (String × JsonValue) :=
  [("requested_url", .str r.requested_url),
   ("results", .arr (r.results.map (fun p => .obj (probeResultFields p))))]

/-! ### Concrete oracle instances used to evaluate the theorems -/

/-- A public-suffix-list oracle for the example host `sub.example.co.uk`. -/
def exPsl : String → Option String :=
  fun h => if h = "sub.example.co.uk" then some "example.co.uk" else none

/-- A parsed example URL for `https://example.com`. -/
def exParsed : ParsedUrl :=
  { scheme := "https", host := some "example.com", full := "https://example.com/" }

/-- Oracles describing a run where everything is nominal: the URL parses,
the cache misses, the DoH call fails at the transport level (fail-open), and
the origin answers 200. -/
def oraclesNominal : Oracles :=
  { parse := fun s => if s = "https://example.com" then some exParsed else none
    cacheGet := fun _ => none
    dns := .transportError "connection reset"
    psl := fun h => if h = "example.com" then some "example.com" else none
    outcome := fun _ => .response 200
    cacheTtlVar := none }

/-- Oracles describing a run whose URL parses to a host-less URL. -/
def oraclesNoHost : Oracles :=
  { parse := fun _ => some { scheme := "data", host := none, full := "data:text/plain" }
    cacheGet := fun _ => none
    dns := .transportError "network unreachable"
    psl := fun _ => none
    outcome := fun _ => .response 200
    cacheTtlVar := none }

/-- Oracles describing a run where the DoH check succeeds with the DNS
NXDOMAIN status 3. -/
def oraclesNxdomain : Oracles :=
  { oraclesNominal with dns := .jsonValue (.obj [("Status", .num 3)]) }

/-- Oracles describing a run where the DoH check returns JSON with no
`Status` member. -/
def oraclesBadJson : Oracles :=
  { oraclesNominal with dns := .jsonValue (.obj [("AD", .bool true)]) }

/-- Oracles describing a run where every probe fails at the transport
level. -/
def oraclesAllDown : Oracles :=
  { oraclesNominal with outcome := fun _ => .error "connection refused" }

/-- A cached response used to exercise the cache-hit path. -/
def exCached : CachedResponse :=
  { status := 200
    headers := [("Content-Type", "application/json"), ("X-Worker-Cache", "MISS")]
    body := "cached-body" }

/-- Oracles describing a run where the cache hits. -/
def oraclesCacheHit : Oracles :=
  { oraclesNominal with cacheGet := fun _ => some exCached }

/-! ### General lemmas about the embedded definitions -/

/-- `probe` returns a result carrying the probed URL, whatever the outcome. -/
theorem probe_url (u t : String) (o : FetchOutcome) : (probe u t o).url = u := by
  cases o <;> rfl

/-- `probe` returns a result carrying the probe type, whatever the outcome. -/
theorem probe_probe_type (u t : String) (o : FetchOutcome) :
    (probe u t o).probe_type = t := by
  cases o <;> rfl

/-- Unfolding equation for `runProbes` on a cons cell. -/
theorem runProbes_cons (f : String → FetchOutcome) (p : String × String)
    (rest : List (String × String)) :
    runProbes f (p :: rest) =
      if (probeStep f p).status = "UP" then [probeStep f p]
      else probeStep f p :: runProbes f rest := rfl

/-- The loop probes at most as many candidates as it is given. -/
theorem runProbes_length_le (f : String → FetchOutcome) (ps : List (String × String)) :
    (runProbes f ps).length ≤ ps.length := by
  induction ps with
  | nil => exact Nat.le_refl 0
  | cons p rest ih =>
    rw [runProbes_cons]
    by_cases h : (probeStep f p).status = "UP"
    · rw [if_pos h]; simp
    · rw [if_neg h]; simpa using Nat.succ_le_succ ih

/-- The results are the probe of a prefix of the candidate list, in order. -/
theorem runProbes_eq_map_take (f : String → FetchOutcome) (ps : List (String × String)) :
    ∃ n, n ≤ ps.length ∧ runProbes f ps = (ps.take n).map (probeStep f) := by
  induction ps with
  | nil => exact ⟨0, Nat.le_refl 0, rfl⟩
  | cons p rest ih =>
    by_cases h : (probeStep f p).status = "UP"
    · exact ⟨1, by simp, by rw [runProbes_cons, if_pos h]; rfl⟩
    · obtain ⟨n, hn, heq⟩ := ih
      exact ⟨n + 1, by simpa using hn, by rw [runProbes_cons, if_neg h]; simp [heq]⟩

/-- An `UP` result is always the last element produced: nothing follows it. -/
theorem runProbes_up_is_last (f : String → FetchOutcome) (ps : List (String × String)) :
    ∀ i r, (runProbes f ps).get? i = some r → r.status = "UP" →
      (runProbes f ps).get? (i + 1) = none := by
  induction ps with
  | nil => intro i r hr; simp [runProbes] at hr
  | cons p rest ih =>
    intro i r hr hup
    rw [runProbes_cons] at hr ⊢
    by_cases h : (probeStep f p).status = "UP"
    · rw [if_pos h] at hr ⊢
      match i with
      | 0 => rfl
      | i + 1 => simp at hr
    · rw [if_neg h] at hr ⊢
      match i with
      | 0 =>
        exfalso
        apply h
        simp at hr
        rw [hr]
        exact hup
      | i + 1 =>
        simp only [List.get?_cons_succ] at hr ⊢
        exact ih i r hr hup
/-- When no probe comes back `UP`, every candidate is probed. -/
theorem runProbes_all_down (f : String → FetchOutcome) (ps : List (String × String))
    (h : ∀ r ∈ runProbes f ps, ¬ r.status = "UP") :
    runProbes f ps = ps.map (probeStep f) := by
  induction ps with
  | nil => rfl
  | cons p rest ih =>
    by_cases hp : (probeStep f p).status = "UP"
    · exfalso
      apply h (probeStep f p) _ hp
      rw [runProbes_cons, if_pos hp]
      exact List.mem_singleton.mpr rfl
    · rw [runProbes_cons, if_neg hp, List.map_cons]
      rw [ih]
      intro r hr
      apply h r
      rw [runProbes_cons, if_neg hp]
      exact List.mem_cons_of_mem _ hr

/-- Every result in the output is the probe of its own URL under the outcome
oracle. -/
theorem runProbes_mem (f : String → FetchOutcome) (ps : List (String × String)) :
    ∀ r ∈ runProbes f ps, ∃ t, r = probe r.url t (f r.url) := by
  induction ps with
  | nil => intro r hr; simp [runProbes] at hr
  | cons p rest ih =>
    intro r hr
    rw [runProbes_cons] at hr
    by_cases hp : (probeStep f p).status = "UP"
    · rw [if_pos hp] at hr
      rw [List.mem_singleton] at hr
      subst hr
      exact ⟨p.2, by simp [probeStep, probe_url]⟩
    · rw [if_neg hp] at hr
      rcases List.mem_cons.mp hr with h1 | h2
      · subst h1
        exact ⟨p.2, by simp [probeStep, probe_url]⟩
      · exact ih r h2

/-- A string starting with a nonempty string is nonempty. -/
theorem append_ne_empty_left (a b : String) (ha : a.data ≠ []) : a ++ b ≠ "" := by
  intro h
  apply ha
  have hd := congrArg String.data h
  rw [String.data_append] at hd
  exact (List.append_eq_nil.mp (by simpa using hd)).1

/-- Shape of the candidate list: the host candidate alone, or the host
candidate followed by a distinct domain candidate. -/
theorem candidates_shape (scheme host : String) (psl : String → Option String) :
    candidates scheme host psl = [(scheme ++ "://" ++ host, "host")] ∨
    ∃ d, psl host = some d ∧ scheme ++ "://" ++ d ≠ scheme ++ "://" ++ host ∧
      candidates scheme host psl =
        [(scheme ++ "://" ++ host, "host"), (scheme ++ "://" ++ d, "domain")] := by
  cases hp : psl host with
  | none => left; simp [candidates, hp]
  | some d =>
    by_cases he : scheme ++ "://" ++ d = scheme ++ "://" ++ host
    · left; simp [candidates, hp, he]
    · right; exact ⟨d, rfl, he, by simp [candidates, hp, he]⟩

/-- Overwriting a header makes its value the one written. -/
theorem getHeader_setHeader_same (hs : List (String × String)) (k v : String) :
    getHeader (setHeader hs k v) k = some v := by
  induction hs with
  | nil => simp [setHeader, getHeader]
  | cons p rest ih =>
    obtain ⟨k1, v1⟩ := p
    by_cases h : k1 = k
    · simp [setHeader, h, getHeader]
    · have hb : (k1 == k) = false := beq_eq_false_iff_ne.mpr h
      simpa [setHeader, if_neg h, getHeader, List.find?, hb] using ih

/-- Overwriting one header leaves every other header name unchanged. -/
theorem getHeader_setHeader_other (hs : List (String × String)) (k v k2 : String)
    (hne : k2 ≠ k) : getHeader (setHeader hs k v) k2 = getHeader hs k2 := by
  have hbk : (k == k2) = false := beq_eq_false_iff_ne.mpr (Ne.symm hne)
  induction hs with
  | nil => simp [setHeader, getHeader, List.find?, hbk]
  | cons p rest ih =>
    obtain ⟨k1, v1⟩ := p
    by_cases h : k1 = k
    · subst h
      simp [setHeader, getHeader, List.find?, hbk]
    · simp only [setHeader, if_neg h]
      by_cases h2 : k1 = k2
      · have hb2 : (k1 == k2) = true := beq_iff_eq.mpr h2
        simp [getHeader, List.find?, hb2]
      · have hb2 : (k1 == k2) = false := beq_eq_false_iff_ne.mpr h2
        simpa [getHeader, List.find?, hb2] using ih

/-- Field values of a probe result for a timed-out probe. -/
theorem probe_timeout_fields (u t : String) :
    (probe u t .timeout).status = "DOWN" ∧ (probe u t .timeout).status_code = none ∧
    (probe u t .timeout).status_text ≠ "" :=
  ⟨rfl, rfl, show ("Request to origin timed-out after 60 secs." : String) ≠ "" by decide⟩

/-- Field values of a probe result for a transport-level fetch error. -/
theorem probe_error_fields (u t e : String) :
    (probe u t (.error e)).status = "DOWN" ∧ (probe u t (.error e)).status_code = none ∧
    (probe u t (.error e)).status_text ≠ "" :=
  ⟨rfl, rfl, append_ne_empty_left _ _ (by decide)⟩

/-! ### Claim theorems -/

/-- C1 counterexample: an HTTP response with status code 500 is classified
`DOWN`, but contrary to the claim its `status_code` is present (`some 500`)
and its `status_text` is empty rather than a non-empty explanation. -/
theorem C1_counterexample :
    (probe "https://example.com" "host" (.response 500)).status = "DOWN" ∧
    (probe "https://example.com" "host" (.response 500)).status_code = some 500 ∧
    (probe "https://example.com" "host" (.response 500)).status_text = "" := by
  decide

/-- C1 (amended): `status = UP` iff an HTTP response was received with code
in [200,400); any received response (UP or not) carries its status code and
an empty `status_text`; a transport error or timeout yields `DOWN` with
`status_code` absent and a non-empty explanatory `status_text`. -/
theorem C1_amended_probe_classification (url ty : String) (o : FetchOutcome) :
    ((probe url ty o).status = "UP" ↔
      ∃ sc, o = .response sc ∧ 200 ≤ sc ∧ sc < 400) ∧
    (∀ sc, o = .response sc →
      (probe url ty o).status_code = some sc ∧ (probe url ty o).status_text = "") ∧
    ((o = .timeout ∨ ∃ e, o = .error e) →
      (probe url ty o).status = "DOWN" ∧ (probe url ty o).status_code = none ∧
      (probe url ty o).status_text ≠ "") := by
  refine ⟨?_, ?_, ?_⟩
  · cases o with
    | response sc =>
      show (if 200 ≤ sc ∧ sc < 400 then "UP" else "DOWN") = "UP" ↔ _
      by_cases hc : 200 ≤ sc ∧ sc < 400
      · rw [if_pos hc]
        exact ⟨fun _ => ⟨sc, rfl, hc⟩, fun _ => rfl⟩
      · rw [if_neg hc]
        constructor
        · intro h
          exact absurd h (show ¬ ("DOWN" : String) = "UP" by decide)
        · rintro ⟨sc2, heq, h2⟩
          cases heq
          exact absurd h2 hc
    | error e =>
      constructor
      · intro h
        exact absurd h (show ¬ ("DOWN" : String) = "UP" by decide)
      · rintro ⟨sc2, heq, h2⟩
        cases heq
    | timeout =>
      constructor
      · intro h
        exact absurd h (show ¬ ("DOWN" : String) = "UP" by decide)
      · rintro ⟨sc2, heq, h2⟩
        cases heq
  · rintro sc rfl
    exact ⟨rfl, rfl⟩
  · rintro (rfl | ⟨e, rfl⟩)
    · exact ⟨rfl, rfl,
        show ("Request to origin timed-out after 60 secs." : String) ≠ "" by decide⟩
    · exact ⟨rfl, rfl, append_ne_empty_left _ _ (by decide)⟩

/-- Witness for C1 (amended): a concrete transport error is `DOWN` with no
status code and a non-empty explanation. -/
theorem C1_amended_witness :
    (probe "https://example.com" "host" (.error "connection refused")).status = "DOWN" ∧
    (probe "https://example.com" "host" (.error "connection refused")).status_code = none ∧
    (probe "https://example.com" "host" (.error "connection refused")).status_text ≠ "" :=
  (C1_amended_probe_classification "https://example.com" "host"
    (.error "connection refused")).2.2 (Or.inr ⟨"connection refused", rfl⟩)

/-- C5: when the 60-second timer wins the race the result is exactly the
timed-out `DOWN` result with no status code, the abort of the in-flight call
has been triggered, and the timer duration is 60 seconds. -/
theorem C5_timeout_mapping (url ty : String) :
    probe url ty .timeout =
      { probe_type := ty, url := url, status := "DOWN", status_code := none,
        status_text := "Request to origin timed-out after 60 secs." } ∧
    probeAborts .timeout = true ∧ probeTimeoutSecs = 60 :=
  ⟨rfl, rfl, rfl⟩

/-- C7 counterexample: the serialized form of a concrete ProbeResult has no
`duration_ms` member (while it does have, e.g., `status_text`). -/
theorem C7_counterexample :
    "duration_ms" ∉
      (probeResultFields (probe "https://example.com" "host" (.response 200))).map
        Prod.fst ∧
    "status_text" ∈
      (probeResultFields (probe "https://example.com" "host" (.response 200))).map
        Prod.fst := by
  decide

/-- C7 (amended): every serialized ProbeResult consists of exactly the
members `type`, `url`, `status`, `status_code` and `status_text`, in that
order; `duration_ms` is not among them in this variant of the handler. -/
theorem C7_amended_fields (r : ProbeResult) :
    (probeResultFields r).map Prod.fst =
      ["type", "url", "status", "status_code", "status_text"] := rfl

/-- C3 counterexample: the raw input `httpbin.org` does not begin with an
HTTP(S) scheme token, so per the claim `https://` would be prepended; the
code checks only the literal prefix `http`, which matches, and leaves the
string unchanged. -/
theorem C3_counterexample :
    normalize "httpbin.org" = "httpbin.org" ∧
    specSchemeTokenCond "httpbin.org" = false ∧
    normalize "httpbin.org" ≠ "https://" ++ "httpbin.org" := by
  decide

/-- C3 (amended): `https://` is prepended iff the raw string does not start
with the literal prefix `http` (not: with an HTTP(S) scheme token); the
normalized string is then parsed, the request ending as `invalidUrl` when
parsing fails and — when the cache does not hit — as `missingHost` when the
parsed URL has no host component, in both cases with no partial result and
no external effect. -/
theorem C3_amended_normalization (o : Oracles) (raw : String) :
    (strStartsWith raw "http" = false → normalize raw = "https://" ++ raw) ∧
    (strStartsWith raw "http" = true → normalize raw = raw) ∧
    (o.parse (normalize raw) = none → fetchCore o raw = (.invalidUrl, [])) ∧
    (∀ u, o.parse (normalize raw) = some u → o.cacheGet u.full = none →
      u.host = none → fetchCore o raw = (.missingHost, [])) := by
  refine ⟨?_, ?_, ?_, ?_⟩
  · intro h; simp [normalize, h]
  · intro h; simp [normalize, h]
  · intro h; simp [fetchCore, h]
  · intro u hu hc hh
    simp [fetchCore, hu, hc, hh]

/-- Witness for C3 (amended): a parsed URL with no host ends the request as
`missingHost`. -/
theorem C3_amended_witness :
    fetchCore oraclesNoHost "data:text/plain" = (.missingHost, []) :=
  (C3_amended_normalization oraclesNoHost "data:text/plain").2.2.2
    { scheme := "data", host := none, full := "data:text/plain" } rfl rfl rfl

/-- C4: the probe loop takes candidates in generation order and its results
are the probes of a prefix of the candidate list; nothing follows an `UP`
result; when no result is `UP` every candidate is probed; there are at most
2 results, and exactly the host result alone when the host probe is `UP`. -/
theorem C4_short_circuit (f : String → FetchOutcome) (scheme host : String)
    (psl : String → Option String) :
    (∃ n, n ≤ (candidates scheme host psl).length ∧
       runProbes f (candidates scheme host psl) =
         ((candidates scheme host psl).take n).map (probeStep f)) ∧
    (∀ i r, (runProbes f (candidates scheme host psl)).get? i = some r →
       r.status = "UP" →
       (runProbes f (candidates scheme host psl)).get? (i + 1) = none) ∧
    ((∀ r ∈ runProbes f (candidates scheme host psl), ¬ r.status = "UP") →
       runProbes f (candidates scheme host psl) =
         (candidates scheme host psl).map (probeStep f)) ∧
    (runProbes f (candidates scheme host psl)).length ≤ 2 ∧
    ((probeStep f (scheme ++ "://" ++ host, "host")).status = "UP" →
       runProbes f (candidates scheme host psl) =
         [probeStep f (scheme ++ "://" ++ host, "host")]) := by
  refine ⟨runProbes_eq_map_take f _, runProbes_up_is_last f _,
    runProbes_all_down f _, ?_, ?_⟩
  · have hle := runProbes_length_le f (candidates scheme host psl)
    rcases candidates_shape scheme host psl with h | ⟨d, hd1, hd2, h⟩
    · rw [h] at hle ⊢
      exact hle.trans (by simp)
    · rw [h] at hle ⊢
      exact hle.trans (by simp)
  · intro hup
    rcases candidates_shape scheme host psl with h | ⟨d, hd1, hd2, h⟩
    · rw [h, runProbes_cons, if_pos hup]
    · rw [h, runProbes_cons, if_pos hup]

/-- Witness for C4: with a host probe that comes back 200, only the host
candidate is probed even though a distinct domain candidate exists. -/
theorem C4_witness :
    runProbes (fun _ => .response 200) (candidates "https" "sub.example.co.uk" exPsl) =
      [probeStep (fun _ => .response 200) ("https://sub.example.co.uk", "host")] :=
  (C4_short_circuit (fun _ => .response 200) "https" "sub.example.co.uk" exPsl).2.2.2.2
    (by decide)

/-- C6: the host candidate is always emitted first with kind `host`; a
`domain` candidate follows exactly when the registrable domain exists and
its URL string differs from the host candidate URL; the output is an ordered
list of 1 or 2 candidates with host before domain. -/
theorem C6_candidates (scheme host : String) (psl : String → Option String) :
    (candidates scheme host psl).get? 0 = some (scheme ++ "://" ++ host, "host") ∧
    1 ≤ (candidates scheme host psl).length ∧
    (candidates scheme host psl).length ≤ 2 ∧
    (∀ d, psl host = some d → scheme ++ "://" ++ d ≠ scheme ++ "://" ++ host →
      candidates scheme host psl =
        [(scheme ++ "://" ++ host, "host"), (scheme ++ "://" ++ d, "domain")]) ∧
    ((psl host = none ∨
        ∃ d, psl host = some d ∧ scheme ++ "://" ++ d = scheme ++ "://" ++ host) →
      candidates scheme host psl = [(scheme ++ "://" ++ host, "host")]) := by
  refine ⟨?_, ?_, ?_, ?_, ?_⟩
  · rcases candidates_shape scheme host psl with h | ⟨d, hd1, hd2, h⟩ <;> rw [h] <;> rfl
  · rcases candidates_shape scheme host psl with h | ⟨d, hd1, hd2, h⟩ <;> rw [h] <;> simp
  · rcases candidates_shape scheme host psl with h | ⟨d, hd1, hd2, h⟩ <;> rw [h] <;> simp
  · intro d hd hne
    simp [candidates, hd, hne]
  · rintro (hn | ⟨d, hd, he⟩)
    · simp [candidates, hn]
    · simp [candidates, hd, he]

/-- Witness for C6: `sub.example.co.uk` yields the host candidate followed
by the `example.co.uk` domain candidate. -/
theorem C6_witness :
    candidates "https" "sub.example.co.uk" exPsl =
      [("https://sub.example.co.uk", "host"), ("https://example.co.uk", "domain")] :=
  (C6_candidates "https" "sub.example.co.uk" exPsl).2.2.2.1 "example.co.uk" rfl
    (by decide)

/-- C2: the safety gate is fail-open on execution failure and fail-closed on
a definitive non-zero status. If the DoH call fails at the transport level
or its body is not JSON, the request proceeds to probing exactly as if no
check had been requested; if `check_domain` succeeds with a non-zero status,
the request ends as a 400 rejection carrying that status, with no probe
performed. -/
theorem C2_gate_asymmetry (o : Oracles) (raw : String) (u : ParsedUrl) (host : String)
    (hp : o.parse (normalize raw) = some u)
    (hc : o.cacheGet u.full = none)
    (hh : u.host = some host) :
    (((∃ e, o.dns = .transportError e) ∨ (∃ e, o.dns = .jsonError e)) →
      (fetchCore o raw).1 =
        .success { requested_url := u.full,
                   results := runProbes o.outcome (candidates u.scheme host o.psl) }
          (missHeaders o)) ∧
    (∀ s, check_domain o.dns = .ok s → s ≠ 0 →
      (fetchCore o raw).1 =
        .rejected 400 ("Request does not pass domain check [" ++ toString s ++ "].") ∧
      httpStatusOf (fetchCore o raw).1 = some 400 ∧
      ∀ url, Event.probeCall url ∉ (fetchCore o raw).2) := by
  constructor
  · rintro (⟨e, he⟩ | ⟨e, he⟩) <;>
      simp [fetchCore, hp, hc, hh, he, check_domain, domainGate]
  · intro s hs hs0
    have hg : domainGate (check_domain o.dns) = .reject s := by
      rw [hs]
      simp [domainGate, hs0]
    refine ⟨?_, ?_, ?_⟩ <;> simp [fetchCore, hp, hc, hh, hg, httpStatusOf]

/-- Witness for C2: a transport-failing DoH check does not block probing. -/
theorem C2_witness :
    (fetchCore oraclesNominal "example.com").1 =
      .success { requested_url := "https://example.com/",
                 results := runProbes oraclesNominal.outcome
                   (candidates "https" "example.com" oraclesNominal.psl) }
        (missHeaders oraclesNominal) :=
  (C2_gate_asymmetry oraclesNominal "example.com" exParsed "example.com"
    rfl rfl rfl).1 (Or.inl ⟨"connection reset", rfl⟩)

/-- C8: on a cache hit the stored response is returned with body and status
unchanged and every header unchanged except `X-Worker-Cache`, which is
overwritten to `HIT`; the effect trace is empty, so no DoH check, no
candidate probing and no cache write happens. -/
theorem C8_cache_hit (o : Oracles) (raw : String) (u : ParsedUrl) (c : CachedResponse)
    (hp : o.parse (normalize raw) = some u)
    (hc : o.cacheGet u.full = some c) :
    (fetchCore o raw).1 =
      .cacheHit { c with headers := setHeader c.headers "X-Worker-Cache" "HIT" } ∧
    (∀ resp, (fetchCore o raw).1 = .cacheHit resp →
      resp.body = c.body ∧ resp.status = c.status ∧
      getHeader resp.headers "X-Worker-Cache" = some "HIT" ∧
      ∀ k, k ≠ "X-Worker-Cache" → getHeader resp.headers k = getHeader c.headers k) ∧
    (fetchCore o raw).2 = [] := by
  have h1 : (fetchCore o raw).1 =
      .cacheHit { c with headers := setHeader c.headers "X-Worker-Cache" "HIT" } := by
    simp [fetchCore, hp, hc]
  refine ⟨h1, ?_, ?_⟩
  · intro resp hresp
    rw [h1] at hresp
    injection hresp with h2
    subst h2
    exact ⟨rfl, rfl, getHeader_setHeader_same _ _ _,
      fun k hk => getHeader_setHeader_other _ _ _ _ hk⟩
  · simp [fetchCore, hp, hc]

/-- Witness for C8: a concrete cache hit returns the stored response with
only the cache marker header rewritten, and an empty effect trace. -/
theorem C8_witness :
    (fetchCore oraclesCacheHit "example.com").1 =
      .cacheHit { exCached with
                  headers := setHeader exCached.headers "X-Worker-Cache" "HIT" } ∧
    (fetchCore oraclesCacheHit "example.com").2 = [] :=
  ⟨(C8_cache_hit oraclesCacheHit "example.com" exParsed exCached rfl rfl).1,
   (C8_cache_hit oraclesCacheHit "example.com" exParsed exCached rfl rfl).2.2⟩

/-- C9: once normalization and the safety gate pass, the handler ends in the
200 success branch whatever the probe outcomes are; probes that fail at the
transport level or time out appear in the body as `DOWN` entries with no
status code and a non-empty `status_text`, never as a request-level
error. -/
theorem C9_probe_failure_is_data (o : Oracles) (raw : String) (u : ParsedUrl)
    (host : String)
    (hp : o.parse (normalize raw) = some u)
    (hc : o.cacheGet u.full = none)
    (hh : u.host = some host)
    (hg : domainGate (check_domain o.dns) = .proceed) :
    (fetchCore o raw).1 =
      .success { requested_url := u.full,
                 results := runProbes o.outcome (candidates u.scheme host o.psl) }
        (missHeaders o) ∧
    httpStatusOf (fetchCore o raw).1 = some 200 ∧
    (∀ resp hs2, (fetchCore o raw).1 = .success resp hs2 →
      ∀ r ∈ resp.results,
        (o.outcome r.url = .timeout ∨ ∃ e, o.outcome r.url = .error e) →
        r.status = "DOWN" ∧ r.status_code = none ∧ r.status_text ≠ "") := by
  have h1 : (fetchCore o raw).1 =
      .success { requested_url := u.full,
                 results := runProbes o.outcome (candidates u.scheme host o.psl) }
        (missHeaders o) := by
    simp [fetchCore, hp, hc, hh, hg]
  refine ⟨h1, by rw [h1]; rfl, ?_⟩
  intro resp hs2 hresp r hr hout
  rw [h1] at hresp
  injection hresp with h2 h3
  subst h2
  obtain ⟨t, ht⟩ := runProbes_mem o.outcome (candidates u.scheme host o.psl) r hr
  rcases hout with hto | ⟨e, he⟩
  · rw [ht, hto]
    exact probe_timeout_fields _ _
  · rw [ht, he]
    exact probe_error_fields _ _ _

/-- Witness for C9: with every probe failing at the transport level, the
request still ends with the service's own status 200. -/
theorem C9_witness :
    httpStatusOf (fetchCore oraclesAllDown "example.com").1 = some 200 :=
  (C9_probe_failure_is_data oraclesAllDown "example.com" exParsed "example.com"
    rfl rfl rfl rfl).2.1

/-- C10: when the DoH body decodes to JSON that is not an object with a
u64-representable `Status` member, `check_domain` panics on an `unwrap`
instead of returning an `Err`; the request therefore dies (no success, no
400 rejection) rather than taking the fail-open path, and no probe runs. -/
theorem C10_unwrap_panics (o : Oracles) (raw : String) (u : ParsedUrl) (host : String)
    (v : JsonValue)
    (hp : o.parse (normalize raw) = some u)
    (hc : o.cacheGet u.full = none)
    (hh : u.host = some host)
    (hdns : o.dns = .jsonValue v)
    (hbad : (asObject v).bind (fun fs => (objGet fs "Status").bind asU64) = none) :
    check_domain o.dns = .panic ∧
    (fetchCore o raw).1 = .panicked ∧
    (fetchCore o raw).2 = [Event.dnsCheck] := by
  have hcd : check_domain o.dns = .panic := by
    rw [hdns]
    rcases hobj : asObject v with _ | fs
    · simp [check_domain, hobj]
    · rcases hget : objGet fs "Status" with _ | sv
      · simp [check_domain, hobj, hget]
      · rcases hu64 : asU64 sv with _ | n
        · simp [check_domain, hobj, hget, hu64]
        · rw [hobj] at hbad
          simp only [Option.some_bind] at hbad
          rw [hget] at hbad
          simp only [Option.some_bind] at hbad
          rw [hu64] at hbad
          cases hbad
  have hg : domainGate (check_domain o.dns) = .abort := by
    rw [hcd]
    rfl
  refine ⟨hcd, ?_, ?_⟩ <;> simp [fetchCore, hp, hc, hh, hg]

/-- Witness for C10: a DoH body decoding to a JSON object whose only member
is `AD` (no `Status` member) makes `check_domain` panic, and the request
dies before any probe. -/
theorem C10_witness :
    check_domain oraclesBadJson.dns = .panic ∧
    (fetchCore oraclesBadJson "example.com").1 = .panicked :=
  ⟨(C10_unwrap_panics oraclesBadJson "example.com" exParsed "example.com"
      (.obj [("AD", .bool true)]) rfl rfl rfl rfl rfl).1,
   (C10_unwrap_panics oraclesBadJson "example.com" exParsed "example.com"
      (.obj [("AD", .bool true)]) rfl rfl rfl rfl rfl).2.1⟩

end UpDown
